import Mathlib

/-!
Verification of the metadata-journalling repository (`src/journal.c`, with the
variant implementation in `src/unnamed/part_000`).

The embedding is byte-level: a `Block` is a function from byte offset to byte
value (memory cells are `uint8_t`, so every read normalises with `% 256`), and
a `Disk` is a function from block index to `Block`.  All multi-byte fields are
little-endian, matching the x86 struct layout the C code relies on
(`struct superblock`, `struct inode`, `struct dirent`, `struct journal_header`,
`struct rec_header`, `struct data_record`).

`cmd_create` and `cmd_install` are translated from `src/journal.c`; the
`p0_` definitions are translated from the variant `src/unnamed/part_000`.
`time(NULL)` is modelled as an explicit `now : Nat` parameter (truncated to
`uint32` where the C code stores it).  I/O errors (`die`) are outside the
model: every `read`/`write` in the C code is a plain block transfer.
-/

namespace Journal

/-- One disk block, as a byte-offset-indexed memory region. -/
abbrev Block := Nat → Nat

/-- The backing image: block index to block. -/
abbrev Disk := Nat → Block

/-- `#define FS_MAGIC 0x56534653U` (`src/journal.c:10`). -/
def FS_MAGIC : Nat := 0x56534653

/-- `#define JOURNAL_MAGIC 0x4A524E4CU` (`src/journal.c:11`). -/
def JOURNAL_MAGIC : Nat := 0x4A524E4C

/-- `#define BLOCK_SIZE 4096U` (`src/journal.c:13`). -/
def BLOCK_SIZE : Nat := 4096

/-- `#define INODE_SIZE 128U` (`src/journal.c:14`). -/
def INODE_SIZE : Nat := 128

/-- `#define JOURNAL_BLOCK_IDX 1U` (`src/journal.c:15`). -/
def JOURNAL_BLOCK_IDX : Nat := 1

/-- `#define JOURNAL_BLOCKS 16U` (`src/journal.c:16`). -/
def JOURNAL_BLOCKS : Nat := 16

/-- `#define INODE_BMAP_IDX 17` (`src/journal.c:19`). -/
def INODE_BMAP_IDX : Nat := 17

/-- `#define DATA_BMAP_IDX 18` (`src/journal.c:20`). -/
def DATA_BMAP_IDX : Nat := 18

/-- `#define INODE_START_IDX 19` (`src/journal.c:21`). -/
def INODE_START_IDX : Nat := 19

/-- `#define DATA_START_IDX 21` (`src/journal.c:22`). -/
def DATA_START_IDX : Nat := 21

/-- `#define JOURNAL_SIZE (JOURNAL_BLOCKS * BLOCK_SIZE)` = 65536 (`src/journal.c:28`). -/
def JOURNAL_SIZE : Nat := JOURNAL_BLOCKS * BLOCK_SIZE

/-- `#define NAME_LEN 28` (`src/journal.c:25`). -/
def NAME_LEN : Nat := 28

/-- `#define REC_DATA 1` (`src/journal.c:30`). -/
def REC_DATA : Nat := 1

/-- `#define REC_COMMIT 2` (`src/journal.c:31`). -/
def REC_COMMIT : Nat := 2

/-- `#define INODE_FILE 1` (`src/journal.c:34`). -/
def INODE_FILE : Nat := 1

/-- Reading one `uint8_t` cell: memory holds bytes, so reads are mod 256. -/
def byte (f : Block) (i : Nat) : Nat := f i % 256

/-- Little-endian `uint16_t` read (the x86 layout `struct rec_header` relies on). -/
def readU16 (f : Block) (off : Nat) : Nat := byte f off + 256 * byte f (off + 1)

/-- Little-endian `uint32_t` read. -/
def readU32 (f : Block) (off : Nat) : Nat :=
  byte f off + 256 * byte f (off + 1) + 65536 * byte f (off + 2)
    + 16777216 * byte f (off + 3)

/-- Little-endian `uint16_t` store into byte memory. -/
def writeU16 (f : Block) (off v : Nat) : Block := fun i =>
  if i = off then v % 256
  else if i = off + 1 then v / 256 % 256
  else f i

/-- Little-endian `uint32_t` store into byte memory. -/
def writeU32 (f : Block) (off v : Nat) : Block := fun i =>
  if i = off then v % 256
  else if i = off + 1 then v / 256 % 256
  else if i = off + 2 then v / 65536 % 256
  else if i = off + 3 then v / 16777216 % 256
  else f i

/-- `memset(p + a, 0, n)` on byte memory. -/
def writeZeros (f : Block) (a n : Nat) : Block := fun i =>
  if a ≤ i ∧ i < a + n then 0 else f i

/-- `bitmap_test` (`src/journal.c:106`): `(bitmap[index / 8] >> (index % 8)) & 0x1`. -/
def bitmap_test (bm : Block) (index : Nat) : Bool :=
  byte bm (index / 8) / 2 ^ (index % 8) % 2 = 1

/-- `bitmap_set` (`src/journal.c:110`): `bitmap[index / 8] |= 1 << (index % 8)`. -/
def bitmap_set (bm : Block) (index : Nat) : Block := fun i =>
  if i = index / 8 then byte bm (index / 8) ||| 2 ^ (index % 8) else bm i

/-- The loop of `bitmap_find_free`, scanning bit `i` with `n` bits left. -/
def bitmap_find_free_from (bm : Block) : Nat → Nat → Option Nat
  | _, 0 => none
  | i, n + 1 =>
    if bitmap_test bm i then bitmap_find_free_from bm (i + 1) n else some i

/-- `bitmap_find_free` (`src/journal.c:114`): first-fit linear scan over
`max_bits` bits, `none` standing for the C sentinel `(uint32_t)-1`. -/
def bitmap_find_free (bm : Block) (max_bits : Nat) : Option Nat :=
  bitmap_find_free_from bm 0 max_bits

/-- The 16 journal blocks starting at `base`, flattened to one byte region
(`read_journal`, `src/journal.c:123`; only offsets below `JOURNAL_SIZE` are
ever consulted). -/
def journalBytesAt (d : Disk) (base : Nat) : Block := fun off =>
  d (base + off / BLOCK_SIZE) (off % BLOCK_SIZE)

/-- `read_journal` at the fixed base `JOURNAL_BLOCK_IDX = 1` of `src/journal.c`. -/
def journalBytes (d : Disk) : Block := journalBytesAt d JOURNAL_BLOCK_IDX

/-- `write_journal` generalised over the base block: blocks
`base .. base+15` are replaced by slices of the in-memory journal buffer
(`src/journal.c:129`, `src/unnamed/part_000:292`). -/
def writeJournalAt (d : Disk) (base : Nat) (j : Block) : Disk := fun b =>
  if base ≤ b ∧ b < base + JOURNAL_BLOCKS then
    (fun off => j ((b - base) * BLOCK_SIZE + off))
  else d b

/-- `write_journal` (`src/journal.c:129`): base block `JOURNAL_BLOCK_IDX = 1`. -/
def writeJournalToDisk (d : Disk) (j : Block) : Disk :=
  writeJournalAt d JOURNAL_BLOCK_IDX j

/-- `init_journal` (`src/journal.c:135`): zeroed region with
`magic = JOURNAL_MAGIC` and `nbytes_used = sizeof(struct journal_header) = 8`. -/
def initJournalBytes : Block :=
  writeU32 (writeU32 (fun _ => 0) 0 JOURNAL_MAGIC) 4 8

/-- `append_data_record` (`src/journal.c:147`): frame a data record at
`off` (type 1, size 4 + 4 + 4096 = 4104, target block number, full block
payload via `memcpy`), returning the buffer and the advanced offset. -/
def append_data_record (j : Block) (off block_no : Nat) (data : Block) :
    Block × Nat :=
  let j1 := writeU16 j off REC_DATA
  let j2 := writeU16 j1 (off + 2) 4104
  let j3 := writeU32 j2 (off + 4) block_no
  let j4 : Block := fun i =>
    if off + 8 ≤ i ∧ i < off + 8 + BLOCK_SIZE then data (i - (off + 8)) % 256
    else j3 i
  (j4, off + 4104)

/-- `append_commit_record` (`src/journal.c:157`): type 2, size 4. -/
def append_commit_record (j : Block) (off : Nat) : Block × Nat :=
  (writeU16 (writeU16 j off REC_COMMIT) (off + 2) 4, off + 4)

/-- `strcmp(entries[i].name, filename) == 0` for a filename with no interior
NUL bytes: the stored bytes match and are NUL-terminated right after.  The
filename is the byte list of the C string (without its terminator). -/
def nameEq (blk : Block) (base : Nat) (name : List Nat) : Bool :=
  ((List.range name.length).all
      (fun k => byte blk (base + k) = name.getD k 0 % 256)) &&
    byte blk (base + name.length) = 0

/-- `strncpy(dst, filename, NAME_LEN - 1)` followed by
`dst[NAME_LEN - 1] = 0` (`src/journal.c:276`): bytes `0 ..= 27` of the name
field become the filename bytes padded with NULs. -/
def writeName (f : Block) (base : Nat) (name : List Nat) : Block := fun i =>
  if base ≤ i ∧ i < base + 27 then
    (if i - base < name.length then name.getD (i - base) 0 % 256 else 0)
  else if i = base + 27 then 0
  else f i

/-- Result of the root-directory scan in `cmd_create`
(`src/journal.c:227`): free slot found, duplicate name found, or directory
full. -/
inductive ScanResult where
  | slot (i : Nat)
  | dup
  | full
deriving DecidableEq

/-- The directory scan loop of `cmd_create` (`src/journal.c:227`): for each
of the `BLOCK_SIZE / sizeof(struct dirent) = 128` entries, first test
`entries[i].inode == 0 && entries[i].name[0] == 0` (free slot, `break`),
then `strcmp(entries[i].name, filename) == 0` (duplicate, error). -/
def dirScanFrom (blk : Block) (name : List Nat) : Nat → Nat → ScanResult
  | _, 0 => .full
  | i, n + 1 =>
    if readU32 blk (i * 32) = 0 ∧ byte blk (i * 32 + 4) = 0 then .slot i
    else if nameEq blk (i * 32 + 4) name then .dup
    else dirScanFrom blk name (i + 1) n

/-- Full directory scan over all 128 root-directory entries. -/
def dirScan (blk : Block) (name : List Nat) : ScanResult :=
  dirScanFrom blk name 0 128

/-- The failures of `cmd_create` (`src/journal.c:169`), each a distinct
`exit(EXIT_FAILURE)` path. -/
inductive CreateErr where
  | NameTooLong
  | InvalidImage
  | NoFreeInode
  | DuplicateName
  | NoFreeDirectorySlot
  | JournalFull
deriving DecidableEq

/-- The in-memory journal buffer `cmd_create` works on: the on-disk region,
re-initialised iff its magic is absent (`src/journal.c:195`). -/
def createJbuf (d : Disk) : Block :=
  if readU32 (journalBytes d) 0 = JOURNAL_MAGIC then journalBytes d
  else initJournalBytes

/-- `current_offset = jhdr->nbytes_used` (`src/journal.c:200`), read from the
possibly just-initialised buffer. -/
def createStartOffset (d : Disk) : Nat := readU32 (createJbuf d) 4

/-- The new-file inode written into the copied inode-table block
(`src/journal.c:265`): `type = INODE_FILE`, `links = 1`, `size = 0`,
`memset(direct, 0, 32)`, `ctime = mtime = (uint32_t)now`, at slot offset
`ib = (free_inode % 32) * 128`. -/
def newInodeBlock (b : Block) (ib now : Nat) : Block :=
  writeU32 (writeU32 (writeZeros
    (writeU32 (writeU16 (writeU16 b ib INODE_FILE) (ib + 2) 1) (ib + 4) 0)
    (ib + 8) 32) (ib + 40) (now % 2 ^ 32)) (ib + 44) (now % 2 ^ 32)

/-- The root-inode update (`src/journal.c:279`), applied only when the new
inode's table block is block 0: `size += sizeof(struct dirent) = 32` (with
`uint32` wraparound) and `mtime = (uint32_t)now`, fields at offsets 4 and 44
of inode slot 0. -/
def rootAdjust (blk : Block) (now : Nat) : Block :=
  writeU32 (writeU32 blk 4 ((readU32 blk 4 + 32) % 2 ^ 32)) 44 (now % 2 ^ 32)

/-- The new root-directory block (`src/journal.c:274`): entry `fe` gets
`inode = free_inode` and the NUL-padded filename. -/
def newDirBlock (blk : Block) (fe ino : Nat) (name : List Nat) : Block :=
  writeName (writeU32 blk (fe * 32) ino) (fe * 32 + 4) name

/-- The transaction staged by `cmd_create` (`src/journal.c:297`): three data
records (targets `b1`, `b2`, `b3` with payloads `p1`, `p2`, `p3`), one commit
record, then `update_journal_header` with the final offset.  Returns the new
buffer and the new `nbytes_used`. -/
def stagedJournal (j : Block) (o0 b1 : Nat) (p1 : Block) (b2 : Nat)
    (p2 : Block) (b3 : Nat) (p3 : Block) : Block × Nat :=
  let q1 := append_data_record j o0 b1 p1
  let q2 := append_data_record q1.1 q1.2 b2 p2
  let q3 := append_data_record q2.1 q2.2 b3 p3
  let q4 := append_commit_record q3.1 q3.2
  (writeU32 q4.1 4 q4.2, q4.2)

/-- `cmd_create` of `src/journal.c:169`, as a function of the image, the
filename bytes and the current time.  Field offsets: superblock `magic` at 0
and `inode_count` at 12; root inode `direct[0]` at offset 8 of block 19.
The `data_bitmap` block is read but never used by the C code, so it does not
appear.  On every error path the process exits before `write_journal`, so no
disk state accompanies an error. -/
def cmd_create (d : Disk) (name : List Nat) (now : Nat) :
    Except CreateErr (Disk × Nat) :=
  if NAME_LEN ≤ name.length then .error .NameTooLong
  else if ¬ readU32 (d 0) 0 = FS_MAGIC then .error .InvalidImage
  else
    match bitmap_find_free (d INODE_BMAP_IDX) (readU32 (d 0) 12) with
    | none => .error .NoFreeInode
    | some ino =>
      match dirScan (d (readU32 (d INODE_START_IDX) 8)) name with
      | .dup => .error .DuplicateName
      | .full => .error .NoFreeDirectorySlot
      | .slot fe =>
        if JOURNAL_SIZE < createStartOffset d + (3 * 4104 + 4) then
          .error .JournalFull
        else
          .ok (writeJournalToDisk d
            (stagedJournal (createJbuf d) (createStartOffset d)
              INODE_BMAP_IDX (bitmap_set (d INODE_BMAP_IDX) ino)
              (INODE_START_IDX + ino / 32)
              (if ino / 32 = 0 then
                rootAdjust
                  (newInodeBlock (d INODE_START_IDX) (ino % 32 * 128) now) now
               else
                newInodeBlock (d (INODE_START_IDX + ino / 32))
                  (ino % 32 * 128) now)
              (readU32 (d INODE_START_IDX) 8)
              (newDirBlock (d (readU32 (d INODE_START_IDX) 8)) fe ino name)).1,
            ino)

/-- `cmd_install`'s only failure (`src/journal.c:326`): journal magic absent. -/
inductive InstallErr where
  | NotInitialized
deriving DecidableEq

/-- The replay scan of `cmd_install` (`src/journal.c:339` and `:358`; both
loops traverse identically): starting at offset 8, while `offset <
nbytes_used` and the 4-byte record header fits (`offset + 4 ≤ nbytes_used`),
collect each data record's `(block_no, payload)` and count commit records,
advancing by the record's declared size; stop—without failing—on an
unrecognised type.  A record declaring size 0 makes the C loop spin forever;
the fuel parameter (instantiated with `nbytes_used + 1`, more than enough for
any genuinely advancing scan) truncates that divergence. -/
def scanJournal (j : Block) (nbytes : Nat) : Nat → Nat → List (Nat × Block) × Nat
  | 0, _ => ([], 0)
  | fuel + 1, off =>
    if off < nbytes then
      if nbytes < off + 4 then ([], 0)
      else if readU16 j off = REC_DATA then
        let rest := scanJournal j nbytes fuel (off + readU16 j (off + 2))
        ((readU32 j (off + 4), fun k => j (off + 8 + k)) :: rest.1, rest.2)
      else if readU16 j off = REC_COMMIT then
        let rest := scanJournal j nbytes fuel (off + readU16 j (off + 2))
        (rest.1, rest.2 + 1)
      else ([], 0)
    else ([], 0)

/-- `write_block(fd, block_no, payload)` on the image. -/
def writeBlockD (d : Disk) (bno : Nat) (p : Block) : Disk := fun b =>
  if b = bno then p else d b

/-- Apply a list of data records in order, each a full-block write
(`src/journal.c:367`). -/
def applyRecords (d : Disk) (rs : List (Nat × Block)) : Disk :=
  rs.foldl (fun acc r => writeBlockD acc r.1 r.2) d

/-- Last-writer-wins selection: the payload of the last record in `rs`
targeting `target`, or `init` if none does. -/
def applySel (init : Block) (target : Nat) (rs : List (Nat × Block)) : Block :=
  rs.foldl (fun acc r => if target = r.1 then r.2 else acc) init

/-- The scan `cmd_install` performs on the image's journal region. -/
def installScan (d : Disk) : List (Nat × Block) × Nat :=
  scanJournal (journalBytes d) (readU32 (journalBytes d) 4)
    (readU32 (journalBytes d) 4 + 1) 8

/-- `cmd_install` of `src/journal.c:314`: fail iff the journal magic is
absent; otherwise count commits and apply every scanned data record to its
target block, then unconditionally reset the journal region via
`init_journal` + `write_journal` and report the commit count. -/
def cmd_install (d : Disk) : Except InstallErr (Disk × Nat) :=
  if ¬ readU32 (journalBytes d) 0 = JOURNAL_MAGIC then .error .NotInitialized
  else
    .ok (writeJournalToDisk (applyRecords d (installScan d).1)
      initJournalBytes, (installScan d).2)

/-! ### The variant implementation `src/unnamed/part_000`

Its `cmd_create` differs from `src/journal.c`: before any check it replays the
staged journal over its in-memory copies of the inode bitmap, the inode block
and the root directory block (`part_000:196-214`); it has no filename-length
check and no duplicate-name check; the free-slot scan tests only
`name[0] == 0`; the new inode lives at slot `ino` of the single inode block
(no block split) and is built by `memset` + field stores; the root inode is
never updated.  Superblock field offsets: `journal_block` 16, `inode_bitmap`
20, `inode_start` 28, `data_start` 32. -/

/-- The journal scan of `part_000`'s merge loop (`part_000:200-213`): while
`off + 4 ≤ nbytes_used`, collect every data record and skip any other type by
its declared size (no stop on unknown types).  Fuel as in `scanJournal`. -/
def p0_scan (j : Block) (nbytes : Nat) : Nat → Nat → List (Nat × Block)
  | 0, _ => []
  | fuel + 1, off =>
    if off + 4 ≤ nbytes then
      let rest := p0_scan j nbytes fuel (off + readU16 j (off + 2))
      if readU16 j off = REC_DATA then
        (readU32 j (off + 4), fun k => j (off + 8 + k)) :: rest
      else rest
    else []

/-- The `if / else if` replay chain of `part_000:205-210`: each data record
whose target equals the inode-bitmap, inode-start or data-start block replaces
the corresponding in-memory copy (first matching branch only). -/
def p0_merge3 (bm ib rb : Block) (ibI isI dsI : Nat)
    (recs : List (Nat × Block)) : Block × Block × Block :=
  recs.foldl (fun acc r =>
    if r.1 = ibI then (r.2, acc.2.1, acc.2.2)
    else if r.1 = isI then (acc.1, r.2, acc.2.2)
    else if r.1 = dsI then (acc.1, acc.2.1, r.2)
    else acc) (bm, ib, rb)

/-- `part_000:236-240`: `memset(ip, 0, 128)` then `type = 1`, `links = 1`,
`ctime = mtime = time(NULL)`, at byte offset `ib = ino * 128`. -/
def p0_newInodeBlock (b : Block) (ib now : Nat) : Block :=
  writeU32 (writeU32 (writeU16 (writeU16 (writeZeros b ib 128) ib 1)
    (ib + 2) 1) (ib + 40) (now % 2 ^ 32)) (ib + 44) (now % 2 ^ 32)

/-- The free-slot scan of `part_000:244-255`: first entry whose `name[0]` is
NUL (the entry's inode number is not consulted). -/
def p0_slotScan (blk : Block) : Nat → Nat → Option Nat
  | _, 0 => none
  | i, n + 1 =>
    if byte blk (i * 32 + 4) = 0 then some i else p0_slotScan blk (i + 1) n

/-- Failure exits of `part_000` (`main` rejects a bad superblock magic;
`cmd_create` returns -1 on the other three). -/
inductive P0Err where
  | InvalidImage
  | NoFreeInode
  | NoFreeDirectorySlot
  | JournalFull
deriving DecidableEq

/-- `cmd_create` of `src/unnamed/part_000:178-298` (with `main`'s superblock
magic gate).  The per-append bounds checks of `p0`'s `append_data` cannot fire
once the upfront capacity check has passed, and their return values are
ignored by the caller, so the appends are modelled unconditionally. -/
def p0_create (d : Disk) (name : List Nat) (now : Nat) :
    Except P0Err (Disk × Nat) :=
  if ¬ readU32 (d 0) 0 = FS_MAGIC then .error .InvalidImage
  else
    let sb := d 0
    let jb := readU32 sb 16
    let j := journalBytesAt d jb
    let recs :=
      if readU32 j 0 = JOURNAL_MAGIC then
        p0_scan j (readU32 j 4) (readU32 j 4 + 1) 8
      else []
    let m := p0_merge3 (d (readU32 sb 20)) (d (readU32 sb 28))
      (d (readU32 sb 32)) (readU32 sb 20) (readU32 sb 28) (readU32 sb 32) recs
    match bitmap_find_free m.1 (BLOCK_SIZE * 8) with
    | none => .error .NoFreeInode
    | some ino =>
      match p0_slotScan m.2.2 0 128 with
      | none => .error .NoFreeDirectorySlot
      | some s =>
        let j1 := if readU32 j 0 = JOURNAL_MAGIC then j else initJournalBytes
        if JOURNAL_SIZE < readU32 j1 4 + (3 * 4104 + 4) then
          .error .JournalFull
        else
          .ok (writeJournalAt d jb
            (stagedJournal j1 (readU32 j1 4)
              (readU32 sb 20) (bitmap_set m.1 ino)
              (readU32 sb 28) (p0_newInodeBlock m.2.1 (ino * 128) now)
              (readU32 sb 32) (newDirBlock m.2.2 s ino name)).1, ino)

/-- The image after a `part_000` create run (unchanged on failure). -/
def p0DiskAfterCreate (d : Disk) (name : List Nat) (now : Nat) : Disk :=
  match p0_create d name now with
  | .ok (d', _) => d'
  | .error _ => d

/-- The inode number a successful `part_000` create allocates. -/
def p0Inode (d : Disk) (name : List Nat) (now : Nat) : Option Nat :=
  match p0_create d name now with
  | .ok (_, ino) => some ino
  | .error _ => none

/-- The image after a `create` process run: the C program exits without any
`write_block` on every `cmd_create` error path (`src/journal.c:170-295` all
precede `write_journal`), so the backing store is unchanged there. -/
def diskAfterCreate (d : Disk) (name : List Nat) (now : Nat) : Disk :=
  match cmd_create d name now with
  | .ok (d', _) => d'
  | .error _ => d

/-- The inode number a successful `create` allocates. -/
def createInode (d : Disk) (name : List Nat) (now : Nat) : Option Nat :=
  match cmd_create d name now with
  | .ok (_, ino) => some ino
  | .error _ => none

/-- The error a failing `create` exits with. -/
def createErrOf (d : Disk) (name : List Nat) (now : Nat) : Option CreateErr :=
  match cmd_create d name now with
  | .ok _ => none
  | .error e => some e

/-- The image after an `install` process run (unchanged if `install` fails). -/
def installDisk (d : Disk) : Disk :=
  match cmd_install d with
  | .ok (d', _) => d'
  | .error _ => d

/-- The transaction count a successful `install` reports. -/
def installCount (d : Disk) : Option Nat :=
  match cmd_install d with
  | .ok (_, n) => some n
  | .error _ => none

/-! ### Concrete images

Formatting is performed by an external collaborator (spec §1, §6); the claims
that start from a freshly formatted image need it modelled. -/

/-- The all-zero block. -/
def zeroBlock : Block := fun _ => 0

/-- Modelled from the spec: the superblock the external formatting step
writes (spec §6: magic, block size 4096, total blocks 85, inode count 64
(2 inode blocks of 32 slots), and the region indices of the layout table in
`src/README.md`: journal 1, inode bitmap 17, data bitmap 18, inode table 19,
data region 21). -/
def sbBlock : Block :=
  writeU32 (writeU32 (writeU32 (writeU32 (writeU32 (writeU32 (writeU32
    (writeU32 (writeU32 zeroBlock 0 FS_MAGIC) 4 4096) 8 85) 12 64) 16 1)
    20 17) 24 18) 28 19) 32 21

/-- Modelled from the spec: the inode bitmap after formatting — zeroed except
the reserved root inode's bit 0 (spec §6: "bitmaps zeroed except reserved
entries"). -/
def fmtInodeBitmap : Block := fun i => if i = 0 then 1 else 0

/-- Modelled from the spec: inode-table block 0 after formatting — the root
inode at slot 0 with `type = Dir`, `links = 1`, `size = 0` and
`direct[0] = 21`, the root directory's data block (spec §6: "empty root
directory present at its designated data block"). -/
def fmtInodeBlock : Block :=
  writeU32 (writeU16 (writeU16 zeroBlock 0 2) 2 1) 8 21

/-- Modelled from the spec: a freshly formatted image — superblock, reserved
bitmap bits, root inode, empty (all-zero) root directory at block 21, and an
uninitialised (all-zero) journal region. -/
def formatDisk : Disk := fun b =>
  if b = 0 then sbBlock
  else if b = 17 then fmtInodeBitmap
  else if b = 19 then fmtInodeBlock
  else zeroBlock

/-- The byte list of the C string `"foo.txt"`. -/
def fooName : List Nat := [102, 111, 111, 46, 116, 120, 116]

/-- A fixed creation time below `2^32`. -/
def t0 : Nat := 1700000000

/-- `formatDisk` with an initialised empty journal header (as left behind by
an `install`), for exercising `install` on a drained journal. -/
def fmtJ : Disk := writeJournalAt formatDisk 1 initJournalBytes

/-- An inode bitmap with every one of the 64 inode bits set. -/
def fullInodeBitmap : Block := fun i => if i < 8 then 255 else 0

/-- A root-directory block whose slot 0 holds the entry
`{inode = 1, name = "foo.txt"}`. -/
def rootWithFoo : Block := writeName (writeU32 zeroBlock 0 1) 4 fooName

/-- Image for claim C3: valid magic, `"foo.txt"` already present in the root
directory, and no free inode. -/
def c3d : Disk := fun b =>
  if b = 0 then sbBlock
  else if b = 17 then fullInodeBitmap
  else if b = 19 then fmtInodeBlock
  else if b = 21 then rootWithFoo
  else zeroBlock

/-- An inode bitmap with bits 0–31 set (inode-table block 0 full), so the
next free inode is 32, living in inode-table block 1. -/
def lowFullBitmap : Block := fun i => if i < 4 then 255 else 0

/-- Image for claim C4: the next free inode (32) falls in inode-table
block 1, not the root inode's block. -/
def c4d : Disk := fun b =>
  if b = 0 then sbBlock
  else if b = 17 then lowFullBitmap
  else if b = 19 then fmtInodeBlock
  else zeroBlock

/-- A journal region whose header says 60000 of 65536 bytes are used, leaving
less than one transaction (12316 bytes) of capacity. -/
def nearFullJournal : Block :=
  writeU32 (writeU32 zeroBlock 0 JOURNAL_MAGIC) 4 60000

/-- Image for claim C5: a formatted image whose journal is valid but too full
to admit another transaction. -/
def c5d : Disk := writeJournalAt formatDisk 1 nearFullJournal

/-- A journal region holding one truncated data record: `nbytes_used = 16`,
record header at 8 with type 1 and declared size 4104 (far past
`nbytes_used`), target block 30, and first payload byte 171. -/
def truncJournal : Block :=
  writeU32 (writeU16 (writeU16 (writeU32 (writeU32
    (fun i => if i = 16 then 171 else 0)
    0 JOURNAL_MAGIC) 4 16) 8 REC_DATA) 10 4104) 12 30

/-- Image for claim C2: an otherwise zero image whose journal holds a single
truncated trailing data record. -/
def dC2 : Disk := writeJournalAt (fun _ => zeroBlock) 1 truncJournal

/-- A journal region holding two complete data records that both target
block 5 — inside the journal region itself — with first payload bytes 171
(record at offset 8) and 205 (record at offset 4112), followed by a commit
record at 8216 (`nbytes_used = 8 + 2 * 4104 + 4 = 8220`). -/
def selfTargetJournal : Block :=
  writeU16 (writeU16 (writeU32 (writeU16 (writeU16 (writeU32 (writeU16
    (writeU16 (writeU32 (writeU32
      (fun i => if i = 16 then 171 else if i = 4120 then 205 else 0)
      0 JOURNAL_MAGIC) 4 8220) 8 REC_DATA) 10 4104) 12 5) 4112 REC_DATA)
    4114 4104) 4116 5) 8216 REC_COMMIT) 8218 4

/-- Image for claim C10: two committed data records targeting the same
journal block 5. -/
def dC10 : Disk := writeJournalAt (fun _ => zeroBlock) 1 selfTargetJournal

/-- A 28-byte filename (one byte too long for the 28-byte name field). -/
def longName : List Nat := List.replicate 28 97

/-! ### Helper lemmas -/

theorem byte_lt (f : Block) (i : Nat) : byte f i < 256 :=
  Nat.mod_lt _ (by norm_num)

theorem readU32_lt (f : Block) (off : Nat) : readU32 f off < 2 ^ 32 := by
  have h0 := byte_lt f off
  have h1 := byte_lt f (off + 1)
  have h2 := byte_lt f (off + 2)
  have h3 := byte_lt f (off + 3)
  unfold readU32
  omega

theorem journalBytesAt_writeJournalAt (d : Disk) (base : Nat) (j : Block)
    (off : Nat) (h : off < 65536) :
    journalBytesAt (writeJournalAt d base j) base off = j off := by
  unfold journalBytesAt writeJournalAt BLOCK_SIZE JOURNAL_BLOCKS
  rw [if_pos ⟨Nat.le_add_right _ _, by omega⟩]
  have := Nat.div_add_mod off 4096
  congr 1
  omega

theorem byte_journalBytes_write (d : Disk) (j : Block) (off : Nat)
    (h : off < 65536) :
    byte (journalBytes (writeJournalAt d JOURNAL_BLOCK_IDX j)) off = byte j off := by
  unfold byte journalBytes JOURNAL_BLOCK_IDX
  rw [journalBytesAt_writeJournalAt d 1 j off h]

theorem readU16_journalBytes_write (d : Disk) (j : Block) (off : Nat)
    (h : off + 1 < 65536) :
    readU16 (journalBytes (writeJournalAt d JOURNAL_BLOCK_IDX j)) off = readU16 j off := by
  unfold readU16
  rw [byte_journalBytes_write d j off (by omega),
    byte_journalBytes_write d j (off + 1) (by omega)]

theorem readU32_journalBytes_write (d : Disk) (j : Block) (off : Nat)
    (h : off + 3 < 65536) :
    readU32 (journalBytes (writeJournalAt d JOURNAL_BLOCK_IDX j)) off = readU32 j off := by
  unfold readU32
  rw [byte_journalBytes_write d j off (by omega),
    byte_journalBytes_write d j (off + 1) (by omega),
    byte_journalBytes_write d j (off + 2) (by omega),
    byte_journalBytes_write d j (off + 3) (by omega)]

theorem writeJournalAt_self (d : Disk) (base : Nat) (j j' : Block) :
    writeJournalAt (writeJournalAt d base j) base j' = writeJournalAt d base j' := by
  funext b
  unfold writeJournalAt
  by_cases hb : base ≤ b ∧ b < base + JOURNAL_BLOCKS <;> simp [hb]

theorem writeJournalAt_out (d : Disk) (base : Nat) (j : Block) (b : Nat)
    (hb : ¬(base ≤ b ∧ b < base + JOURNAL_BLOCKS)) :
    writeJournalAt d base j b = d b := by
  unfold writeJournalAt
  rw [if_neg hb]

theorem bitmap_find_free_from_lt (bm : Block) (n i k : Nat)
    (h : bitmap_find_free_from bm i n = some k) : k < i + n := by
  induction n generalizing i with
  | zero => exact Option.noConfusion h
  | succ m ih =>
    unfold bitmap_find_free_from at h
    by_cases ht : bitmap_test bm i
    · rw [if_pos ht] at h
      have := ih (i + 1) h
      omega
    · rw [if_neg ht] at h
      injection h with h
      omega

theorem bitmap_find_free_lt (bm : Block) (n i : Nat)
    (h : bitmap_find_free bm n = some i) : i < n := by
  have := bitmap_find_free_from_lt bm n 0 i h
  omega

theorem bitmap_find_free_from_clear (bm : Block) (n i k : Nat)
    (h : bitmap_find_free_from bm i n = some k) : bitmap_test bm k = false := by
  induction n generalizing i with
  | zero => exact Option.noConfusion h
  | succ m ih =>
    unfold bitmap_find_free_from at h
    by_cases ht : bitmap_test bm i
    · rw [if_pos ht] at h
      exact ih (i + 1) h
    · rw [if_neg ht] at h
      injection h with h
      rw [← h]
      exact Bool.eq_false_iff.mpr ht

theorem bitmap_find_free_clear (bm : Block) (n i : Nat)
    (h : bitmap_find_free bm n = some i) : bitmap_test bm i = false :=
  bitmap_find_free_from_clear bm n 0 i h

theorem applyRecords_at (rs : List (Nat × Block)) (d : Disk) (b : Nat) :
    applyRecords d rs b = applySel (d b) b rs := by
  induction rs generalizing d with
  | nil => rfl
  | cons r rs ih =>
    show applyRecords (writeBlockD d r.1 r.2) rs b = _
    rw [ih]
    rfl

theorem scanJournal_stop_of_le (j : Block) (n fuel off : Nat) (h : n ≤ off) :
    scanJournal j n fuel off = ([], 0) := by
  cases fuel with
  | zero => rfl
  | succ m =>
    unfold scanJournal
    rw [if_neg (Nat.not_lt.mpr h)]

/-! ### Claim theorems -/

set_option maxRecDepth 40000 in
/-- Claim C1 (code bug, evaluated at the failing input): on a freshly
formatted image, `src/journal.c` merges nothing — a second
`create("foo.txt")` issued before any install neither fails with
DuplicateName nor allocates a distinct inode: both calls allocate inode 1.
The variant `src/unnamed/part_000`, which does merge the staged journal,
allocates 1 and then 2 as the claim demands. -/
theorem c1_no_merge_double_allocates :
    createInode formatDisk fooName t0 = some 1 ∧
    createInode (diskAfterCreate formatDisk fooName t0) fooName t0 = some 1 ∧
    createErrOf (diskAfterCreate formatDisk fooName t0) fooName t0 = none ∧
    p0Inode formatDisk fooName t0 = some 1 ∧
    p0Inode (p0DiskAfterCreate formatDisk fooName t0) fooName t0 = some 2 := by
  refine ⟨by decide, ?_, ?_, by decide, ?_⟩
  · decide
  · decide
  · decide

/-- Claim C3 (counterexample): on an image whose root directory already
contains `"foo.txt"` (root directory block 21, as designated by the root
inode) but whose inode bitmap is full, `create("foo.txt")` fails with
NoFreeInode — not DuplicateName as the claimed check order requires. -/
theorem c3_counterexample :
    readU32 (c3d INODE_START_IDX) 8 = 21 ∧
    nameEq (c3d 21) 4 fooName = true ∧
    createErrOf c3d fooName t0 = some CreateErr.NoFreeInode ∧
    CreateErr.NoFreeInode ≠ CreateErr.DuplicateName := by
  refine ⟨by decide, by decide, by decide, by decide⟩

/-- Claim C3 (amended): after the name-length gate, the checks run in the
order superblock magic (InvalidImage), free inode bit (NoFreeInode), and
only then the directory scan, which reports DuplicateName or
NoFreeDirectorySlot; so a duplicate name on an image with no free inode
fails with NoFreeInode. -/
theorem c3_check_order (d : Disk) (name : List Nat) (now : Nat)
    (hlen : name.length < NAME_LEN) (hmag : readU32 (d 0) 0 = FS_MAGIC) :
    (bitmap_find_free (d INODE_BMAP_IDX) (readU32 (d 0) 12) = none →
      cmd_create d name now = .error .NoFreeInode) ∧
    (∀ ino, bitmap_find_free (d INODE_BMAP_IDX) (readU32 (d 0) 12) = some ino →
      dirScan (d (readU32 (d INODE_START_IDX) 8)) name = .dup →
      cmd_create d name now = .error .DuplicateName) ∧
    (∀ ino, bitmap_find_free (d INODE_BMAP_IDX) (readU32 (d 0) 12) = some ino →
      dirScan (d (readU32 (d INODE_START_IDX) 8)) name = .full →
      cmd_create d name now = .error .NoFreeDirectorySlot) := by
  unfold cmd_create
  rw [if_neg (Nat.not_le.mpr hlen), if_neg (fun hc => hc hmag)]
  refine ⟨fun hf => by rw [hf], fun ino hf hs => by rw [hf, hs],
    fun ino hf hs => by rw [hf, hs]⟩

/-- Witness for `c3_check_order` at the image `c3d`: the full-bitmap branch
fires concretely. -/
theorem c3_check_order_witness :
    cmd_create c3d fooName t0 = .error .NoFreeInode :=
  (c3_check_order c3d fooName t0 (by decide) (by decide)).1 (by decide)

/-- Claim C5 (confirmed): once the earlier preconditions have passed,
admission is a single upfront comparison of the whole transaction's size
(3 × 4104 + 4 bytes) against the remaining capacity, evaluated before any
record is appended; on overflow `create` fails with JournalFull and the
backing store — every journal byte included — is exactly the pre-call
image. -/
theorem c5_capacity_upfront (d : Disk) (name : List Nat) (now : Nat)
    (ino fe : Nat)
    (hlen : name.length < NAME_LEN) (hmag : readU32 (d 0) 0 = FS_MAGIC)
    (hfree : bitmap_find_free (d INODE_BMAP_IDX) (readU32 (d 0) 12) = some ino)
    (hslot : dirScan (d (readU32 (d INODE_START_IDX) 8)) name = .slot fe)
    (hcap : JOURNAL_SIZE < createStartOffset d + (3 * 4104 + 4)) :
    cmd_create d name now = .error .JournalFull ∧
    diskAfterCreate d name now = d := by
  have hc : cmd_create d name now = .error .JournalFull := by
    unfold cmd_create
    rw [if_neg (Nat.not_le.mpr hlen), if_neg (fun hc => hc hmag), hfree, hslot]
    exact if_pos hcap
  exact ⟨hc, by unfold diskAfterCreate; rw [hc]⟩

/-- Witness for `c5_capacity_upfront`: a journal with 60000 of 65536 bytes
used rejects the next transaction wholesale and the image is untouched. -/
theorem c5_capacity_upfront_witness :
    cmd_create c5d fooName t0 = .error .JournalFull ∧
    diskAfterCreate c5d fooName t0 = c5d :=
  c5_capacity_upfront c5d fooName t0 1 0 (by decide) (by decide) (by decide)
    (by decide) (by decide)

/-- Claim C6 (confirmed): a successful `create` writes only the journal
region — every block outside blocks 1–16 of the resulting image is the
pre-call block. -/
theorem c6_create_mutates_only_journal (d : Disk) (name : List Nat)
    (now : Nat) (r : Disk × Nat) (h : cmd_create d name now = .ok r)
    (b : Nat) (hb : b = 0 ∨ 17 ≤ b) : r.1 b = d b := by
  unfold cmd_create at h
  split at h
  · exact Except.noConfusion h
  split at h
  · exact Except.noConfusion h
  split at h
  · exact Except.noConfusion h
  split at h
  · exact Except.noConfusion h
  · exact Except.noConfusion h
  split at h
  · exact Except.noConfusion h
  injection h with h1
  rw [← h1]
  exact writeJournalAt_out d JOURNAL_BLOCK_IDX _ b
    (by unfold JOURNAL_BLOCK_IDX JOURNAL_BLOCKS; omega)

/-- Witness for `c6_create_mutates_only_journal`: after the round-trip
`create("foo.txt")` staging on the formatted image, the root-directory
block 21 is still the formatted one. -/
theorem c6_create_mutates_only_journal_witness :
    (diskAfterCreate formatDisk fooName t0, 1).1 21 = formatDisk 21 :=
  c6_create_mutates_only_journal formatDisk fooName t0
    (diskAfterCreate formatDisk fooName t0, 1) rfl 21 (Or.inr (by norm_num))

/-- Claim C9 (counterexample): the empty filename is not rejected —
`create("")` on a freshly formatted image succeeds and allocates inode 1,
instead of failing validation as the claim states. -/
theorem c9_counterexample :
    createErrOf formatDisk [] t0 = none ∧
    createInode formatDisk [] t0 = some 1 := by
  refine ⟨by decide, by decide⟩

/-- Claim C9 (amended): only the length test guards `create` — any filename
of length at least `NAME_LEN = 28` fails with NameTooLong before any
journal mutation, leaving the backing store unchanged; the empty filename
passes the gate. -/
theorem c9_long_name_rejected (d : Disk) (name : List Nat) (now : Nat)
    (h : NAME_LEN ≤ name.length) :
    cmd_create d name now = .error .NameTooLong ∧
    diskAfterCreate d name now = d := by
  have hc : cmd_create d name now = .error .NameTooLong := by
    unfold cmd_create
    rw [if_pos h]
  exact ⟨hc, by unfold diskAfterCreate; rw [hc]⟩

/-- Witness for `c9_long_name_rejected` on a 28-byte name. -/
theorem c9_long_name_rejected_witness :
    cmd_create formatDisk longName t0 = .error .NameTooLong ∧
    diskAfterCreate formatDisk longName t0 = formatDisk :=
  c9_long_name_rejected formatDisk longName t0 (by decide)

set_option maxRecDepth 40000 in
/-- Claim C2 (counterexample): on the image `dC2`, whose journal holds a
single data record with declared size 4104 while `nbytes_used = 16`,
`install` still applies the truncated record: block 30 receives the payload
byte 171 that lives at journal offset 16 = `nbytes_used`, even though the
claim says such a record is never written. -/
theorem c2_counterexample :
    readU32 (journalBytes dC2) 4 = 16 ∧
    readU16 (journalBytes dC2) 8 = REC_DATA ∧
    readU16 (journalBytes dC2) 10 = 4104 ∧
    installCount dC2 = some 0 ∧
    byte (dC2 30) 0 = 0 ∧
    byte (installDisk dC2 30) 0 = 171 := by
  refine ⟨by decide, by decide, by decide, by decide, by decide, by decide⟩

/-- Claim C2 (amended): the replay scan stops — without failing the whole
operation — when the next record's 4-byte header would cross `nbytes_used`
or when its type is neither Data nor Commit; but a data record whose header
fits while its declared size crosses `nbytes_used` is still applied in
full, reading payload bytes at offsets past `nbytes_used` (see
`c2_counterexample`). -/
theorem c2_scan_stop (d : Disk) (j : Block) (n fuel off : Nat) :
    (readU32 (journalBytes d) 0 = JOURNAL_MAGIC →
      ∃ p, cmd_install d = .ok p) ∧
    (n < off + 4 → scanJournal j n fuel off = ([], 0)) ∧
    (¬ readU16 j off = REC_DATA → ¬ readU16 j off = REC_COMMIT →
      scanJournal j n fuel off = ([], 0)) := by
  refine ⟨?_, ?_, ?_⟩
  · intro h
    unfold cmd_install
    rw [if_neg (fun hc => hc h)]
    exact ⟨_, rfl⟩
  · intro h
    cases fuel with
    | zero => rfl
    | succ m =>
      unfold scanJournal
      by_cases h2 : off < n
      · rw [if_pos h2, if_pos h]
      · rw [if_neg h2]
  · intro h1 h2
    cases fuel with
    | zero => rfl
    | succ m =>
      unfold scanJournal
      by_cases h3 : off < n
      · rw [if_pos h3]
        by_cases h4 : n < off + 4
        · rw [if_pos h4]
        · rw [if_neg h4, if_neg h1, if_neg h2]
      · rw [if_neg h3]

/-- Witness for `c2_scan_stop`: concrete instances of all three parts — the
corrupt-journal image `dC2` still installs successfully, and the scan stops
on a truncated header and on an unknown record type. -/
theorem c2_scan_stop_witness :
    (∃ p, cmd_install dC2 = .ok p) ∧
    scanJournal truncJournal 16 17 14 = ([], 0) ∧
    scanJournal zeroBlock 100 101 8 = ([], 0) := by
  refine ⟨(c2_scan_stop dC2 truncJournal 16 17 14).1 (by decide),
    (c2_scan_stop dC2 truncJournal 16 17 14).2.1 (by decide),
    (c2_scan_stop dC2 zeroBlock 100 101 8).2.2 (by decide) (by decide)⟩

set_option maxRecDepth 40000 in
/-- Claim C7 (confirmed, on the spec-modelled formatted image):
`create("foo.txt")` then `install` allocates inode 1, replays one
transaction, sets inode bit 1, writes the inode record with `type = File`,
`links = 1`, `size = 0` and all eight direct pointers zero (slot 1 of
block 19, byte offset 128), and leaves the root directory with exactly one
entry — slot 0 named `"foo.txt"` pointing at inode 1, every other slot
still empty. -/
theorem c7_round_trip :
    createInode formatDisk fooName t0 = some 1 ∧
    installCount (diskAfterCreate formatDisk fooName t0) = some 1 ∧
    bitmap_test (installDisk (diskAfterCreate formatDisk fooName t0) 17) 1
      = true ∧
    readU16 (installDisk (diskAfterCreate formatDisk fooName t0) 19) 128
      = INODE_FILE ∧
    readU16 (installDisk (diskAfterCreate formatDisk fooName t0) 19) 130
      = 1 ∧
    readU32 (installDisk (diskAfterCreate formatDisk fooName t0) 19) 132
      = 0 ∧
    ((List.range 8).all fun k =>
      readU32 (installDisk (diskAfterCreate formatDisk fooName t0) 19)
        (136 + 4 * k) == 0) = true ∧
    readU32 (installDisk (diskAfterCreate formatDisk fooName t0) 21) 0
      = 1 ∧
    nameEq (installDisk (diskAfterCreate formatDisk fooName t0) 21) 4 fooName
      = true ∧
    ((List.range 127).all fun i =>
      readU32 (installDisk (diskAfterCreate formatDisk fooName t0) 21)
          ((i + 1) * 32) == 0 &&
        byte (installDisk (diskAfterCreate formatDisk fooName t0) 21)
          ((i + 1) * 32 + 4) == 0) = true := by
  refine ⟨by decide, by decide, by decide, by decide, by decide, by decide,
    by decide, by decide, by decide, ?_⟩
  decide

/-- Claim C8 (confirmed): any successful `install` leaves the journal
re-initialised, so a second `install` on its result finds `nbytes_used = 8`,
applies nothing, reports zero transactions and returns the very same image. -/
theorem c8_install_idempotent (d d1 : Disk) (n : Nat)
    (h : cmd_install d = .ok (d1, n)) : cmd_install d1 = .ok (d1, 0) := by
  unfold cmd_install at h
  split at h
  · exact Except.noConfusion h
  injection h with h1
  injection h1 with hd hn
  have hm : readU32 (journalBytes d1) 0 = JOURNAL_MAGIC := by
    rw [← hd]
    unfold writeJournalToDisk
    rw [readU32_journalBytes_write _ _ 0 (by norm_num)]
    decide
  have h8 : readU32 (journalBytes d1) 4 = 8 := by
    rw [← hd]
    unfold writeJournalToDisk
    rw [readU32_journalBytes_write _ _ 4 (by norm_num)]
    decide
  have happ : applyRecords d1 (installScan d1).1 = d1 := by
    unfold installScan
    rw [h8, scanJournal_stop_of_le _ _ _ _ (le_refl 8)]
    rfl
  have hw : writeJournalToDisk d1 initJournalBytes = d1 := by
    rw [← hd]
    unfold writeJournalToDisk
    exact writeJournalAt_self _ _ _ _
  have hcnt : (installScan d1).2 = 0 := by
    unfold installScan
    rw [h8, scanJournal_stop_of_le _ _ _ _ (le_refl 8)]
  unfold cmd_install
  rw [if_neg (fun hc => hc hm), happ, hw, hcnt]

/-- Witness for `c8_install_idempotent`: installing the drained image
`fmtJ` a second time is the identity with zero transactions. -/
theorem c8_install_idempotent_witness :
    cmd_install (installDisk fmtJ) = .ok (installDisk fmtJ, 0) :=
  c8_install_idempotent fmtJ (installDisk fmtJ) 0 rfl

set_option maxRecDepth 40000 in
/-- Claim C10 (counterexample): two committed data records before the scan
stop point target the same block 5 — which lies inside the journal region —
with payloads starting 171 and 205; `install` applies both in order but
then resets the journal over block 5, so the block's final content is the
reset byte 0, not the last record's payload byte 205 as the claim states. -/
theorem c10_counterexample :
    readU16 (journalBytes dC10) 8 = REC_DATA ∧
    readU32 (journalBytes dC10) 12 = 5 ∧
    byte (journalBytes dC10) 16 = 171 ∧
    readU16 (journalBytes dC10) 4112 = REC_DATA ∧
    readU32 (journalBytes dC10) 4116 = 5 ∧
    byte (journalBytes dC10) 4120 = 205 ∧
    readU32 (journalBytes dC10) 4 = 8220 ∧
    (installScan dC10).1.map Prod.fst = [5, 5] ∧
    installCount dC10 = some 1 ∧
    byte (applySel (dC10 5) 5 (installScan dC10).1) 0 = 205 ∧
    byte (installDisk dC10 5) 0 = 0 := by
  refine ⟨by decide, by decide, by decide, by decide, by decide, by decide,
    by decide, by decide, by decide, by decide, by decide⟩

/-- Claim C10 (amended): for every block outside the journal region, the
content after `install` is the last-writer-wins fold of the scanned data
records over the pre-install content — data records are applied in
increasing journal-offset order, one full-block write each, independent of
commit placement; blocks inside the journal region are instead overwritten
by the final journal reset (see `c10_counterexample`). -/
theorem c10_last_writer_wins (d d' : Disk) (cnt : Nat)
    (h : cmd_install d = .ok (d', cnt)) (b : Nat) (hb : b = 0 ∨ 17 ≤ b) :
    d' b = applySel (d b) b (installScan d).1 := by
  unfold cmd_install at h
  split at h
  · exact Except.noConfusion h
  injection h with h1
  injection h1 with hd hn
  rw [← hd]
  unfold writeJournalToDisk
  rw [writeJournalAt_out _ _ _ b
    (by unfold JOURNAL_BLOCK_IDX JOURNAL_BLOCKS; omega)]
  exact applyRecords_at _ _ _

/-- Witness for `c10_last_writer_wins` at the image `dC2`: block 30's final
content is the scanned record's payload. -/
theorem c10_last_writer_wins_witness :
    installDisk dC2 30 = applySel (dC2 30) 30 (installScan dC2).1 :=
  c10_last_writer_wins dC2 (installDisk dC2) 0 rfl 30 (Or.inr (by norm_num))

theorem staged8_bno1 (j p1 p2 p3 : Block) (b1 b2 b3 : Nat) :
    readU32 (stagedJournal j 8 b1 p1 b2 p2 b3 p3).1 12 = b1 % 2 ^ 32 := by
  simp [stagedJournal, append_data_record, append_commit_record, readU32,
    readU16, byte, writeU32, writeU16, BLOCK_SIZE, REC_DATA, REC_COMMIT]
  omega

theorem staged8_bno2 (j p1 p2 p3 : Block) (b1 b2 b3 : Nat) :
    readU32 (stagedJournal j 8 b1 p1 b2 p2 b3 p3).1 4116 = b2 % 2 ^ 32 := by
  simp [stagedJournal, append_data_record, append_commit_record, readU32,
    readU16, byte, writeU32, writeU16, BLOCK_SIZE, REC_DATA, REC_COMMIT]
  omega

theorem staged8_bno3 (j p1 p2 p3 : Block) (b1 b2 b3 : Nat) :
    readU32 (stagedJournal j 8 b1 p1 b2 p2 b3 p3).1 8220 = b3 % 2 ^ 32 := by
  simp [stagedJournal, append_data_record, append_commit_record, readU32,
    readU16, byte, writeU32, writeU16, BLOCK_SIZE, REC_DATA, REC_COMMIT]
  omega

theorem staged8_commit_type (j p1 p2 p3 : Block) (b1 b2 b3 : Nat) :
    readU16 (stagedJournal j 8 b1 p1 b2 p2 b3 p3).1 12320 = REC_COMMIT := by
  simp [stagedJournal, append_data_record, append_commit_record, readU16,
    byte, writeU32, writeU16, BLOCK_SIZE, REC_DATA, REC_COMMIT]

theorem staged8_nbytes (j p1 p2 p3 : Block) (b1 b2 b3 : Nat) :
    readU32 (stagedJournal j 8 b1 p1 b2 p2 b3 p3).1 4 = 12324 := by
  simp [stagedJournal, append_data_record, append_commit_record, readU32,
    readU16, byte, writeU32, writeU16, BLOCK_SIZE, REC_DATA, REC_COMMIT]

theorem staged8_p2_size (j p1 p2 p3 : Block) (b1 b2 b3 : Nat) :
    readU32 (stagedJournal j 8 b1 p1 b2 p2 b3 p3).1 4124 = readU32 p2 4 := by
  simp [stagedJournal, append_data_record, append_commit_record, readU32,
    readU16, byte, writeU32, writeU16, BLOCK_SIZE, REC_DATA, REC_COMMIT]

theorem staged8_p2_mtime (j p1 p2 p3 : Block) (b1 b2 b3 : Nat) :
    readU32 (stagedJournal j 8 b1 p1 b2 p2 b3 p3).1 4164 = readU32 p2 44 := by
  simp [stagedJournal, append_data_record, append_commit_record, readU32,
    readU16, byte, writeU32, writeU16, BLOCK_SIZE, REC_DATA, REC_COMMIT]

theorem readU32_rootAdjust_size (blk : Block) (now : Nat) :
    readU32 (rootAdjust blk now) 4 = (readU32 blk 4 + 32) % 2 ^ 32 := by
  simp [rootAdjust, readU32, byte, writeU32]
  omega

theorem readU32_rootAdjust_mtime (blk : Block) (now : Nat) :
    readU32 (rootAdjust blk now) 44 = now % 2 ^ 32 := by
  simp [rootAdjust, readU32, byte, writeU32]
  omega

theorem byte_newInodeBlock_low (b : Block) (ib now i : Nat) (h : i < ib) :
    byte (newInodeBlock b ib now) i = byte b i := by
  simp only [newInodeBlock, writeU32, writeZeros, writeU16, byte]
  repeat rw [if_neg (by omega)]

theorem readU32_newInodeBlock_low (b : Block) (ib now p : Nat)
    (h : p + 3 < ib) : readU32 (newInodeBlock b ib now) p = readU32 b p := by
  unfold readU32
  rw [byte_newInodeBlock_low _ _ _ _ (by omega),
    byte_newInodeBlock_low _ _ _ _ (by omega),
    byte_newInodeBlock_low _ _ _ _ (by omega),
    byte_newInodeBlock_low _ _ _ _ (by omega)]

set_option maxRecDepth 40000 in
/-- Claim C4 (counterexample): on the image `c4d` (inode-table block 0
full), `create` allocates inode 32, which lives in inode-table block 1
(block 20); the staged transaction's three data records target blocks 17,
20 and 21, and its commit closes the journal at `nbytes_used = 12324` — no
record snapshots the root inode's block 19, so no staged copy carries an
incremented root size. -/
theorem c4_counterexample :
    createInode c4d fooName t0 = some 32 ∧
    readU32 (c4d INODE_START_IDX) 8 = 21 ∧
    readU32 (journalBytes (diskAfterCreate c4d fooName t0)) 12 = 17 ∧
    readU32 (journalBytes (diskAfterCreate c4d fooName t0)) 4116 = 20 ∧
    readU32 (journalBytes (diskAfterCreate c4d fooName t0)) 8220 = 21 ∧
    readU16 (journalBytes (diskAfterCreate c4d fooName t0)) 12320
      = REC_COMMIT ∧
    readU32 (journalBytes (diskAfterCreate c4d fooName t0)) 4 = 12324 := by
  refine ⟨by decide, by decide, by decide, by decide, by decide, by decide,
    by decide⟩

/-- Claim C4 (amended): a successful `create` on an empty journal stages
exactly three data records — the inode bitmap (block 17), the single
inode-table block holding the new inode (block `19 + ino / 32`), and the
root directory's data block — plus one commit, with `nbytes_used = 12324`.
Only when the new inode falls in inode-table block 0 does that snapshot
carry the root-inode update (size + 32, mtime = now, at payload offsets 4
and 44); when it falls in another block, none of the three targets is the
root inode's block 19, no root snapshot is staged, and the on-disk root
inode block is unchanged. -/
theorem c4_root_snapshot_only_in_block0 (d : Disk) (name : List Nat)
    (now : Nat) (d' : Disk) (ino : Nat)
    (h : cmd_create d name now = .ok (d', ino))
    (hOff : createStartOffset d = 8)
    (hRoot : bitmap_test (d INODE_BMAP_IDX) 0 = true)
    (hRdb : ¬ readU32 (d INODE_START_IDX) 8 = INODE_START_IDX) :
    readU32 (journalBytes d') 12 = INODE_BMAP_IDX ∧
    readU32 (journalBytes d') 4116 = INODE_START_IDX + ino / 32 ∧
    readU32 (journalBytes d') 8220 = readU32 (d INODE_START_IDX) 8 ∧
    readU16 (journalBytes d') 12320 = REC_COMMIT ∧
    readU32 (journalBytes d') 4 = 12324 ∧
    d' INODE_START_IDX = d INODE_START_IDX ∧
    (ino / 32 = 0 →
      readU32 (journalBytes d') 4124
        = (readU32 (d INODE_START_IDX) 4 + 32) % 2 ^ 32 ∧
      readU32 (journalBytes d') 4164 = now % 2 ^ 32) ∧
    (¬ ino / 32 = 0 →
      ¬ INODE_START_IDX + ino / 32 = INODE_START_IDX ∧
      ¬ INODE_BMAP_IDX = INODE_START_IDX ∧
      ¬ readU32 (d INODE_START_IDX) 8 = INODE_START_IDX) := by
  unfold cmd_create at h
  split at h
  · exact Except.noConfusion h
  split at h
  · exact Except.noConfusion h
  split at h
  · exact Except.noConfusion h
  rename_i ino0 hfind
  split at h
  · exact Except.noConfusion h
  · exact Except.noConfusion h
  rename_i fe hscan
  split at h
  · exact Except.noConfusion h
  injection h with h1
  injection h1 with hd hi
  rw [hi] at hfind hd
  have hlt : ino < readU32 (d 0) 12 := bitmap_find_free_lt _ _ _ hfind
  have hcnt : readU32 (d 0) 12 < 2 ^ 32 := readU32_lt _ _
  have hclear : bitmap_test (d INODE_BMAP_IDX) ino = false :=
    bitmap_find_free_clear _ _ _ hfind
  have hne0 : ¬ ino = 0 := by
    intro h0
    rw [h0, hRoot] at hclear
    exact Bool.noConfusion hclear
  rw [← hd]
  unfold writeJournalToDisk
  rw [hOff]
  rw [readU32_journalBytes_write _ _ 12 (by norm_num),
    readU32_journalBytes_write _ _ 4116 (by norm_num),
    readU32_journalBytes_write _ _ 8220 (by norm_num),
    readU16_journalBytes_write _ _ 12320 (by norm_num),
    readU32_journalBytes_write _ _ 4 (by norm_num),
    readU32_journalBytes_write _ _ 4124 (by norm_num),
    readU32_journalBytes_write _ _ 4164 (by norm_num)]
  rw [staged8_bno1, staged8_bno2, staged8_bno3, staged8_commit_type,
    staged8_nbytes, staged8_p2_size, staged8_p2_mtime]
  refine ⟨by unfold INODE_BMAP_IDX; norm_num, ?_, ?_, rfl, rfl, ?_, ?_, ?_⟩
  · apply Nat.mod_eq_of_lt
    unfold INODE_START_IDX
    omega
  · exact Nat.mod_eq_of_lt (readU32_lt _ _)
  · exact writeJournalAt_out _ _ _ _
      (by unfold JOURNAL_BLOCK_IDX JOURNAL_BLOCKS INODE_START_IDX; omega)
  · intro hcase
    rw [if_pos hcase]
    have hib : 4 + 3 < ino % 32 * 128 := by omega
    constructor
    · rw [readU32_rootAdjust_size, readU32_newInodeBlock_low _ _ _ _ hib]
    · rw [readU32_rootAdjust_mtime]
  · intro hcase
    exact ⟨by unfold INODE_START_IDX; omega,
      by unfold INODE_BMAP_IDX INODE_START_IDX; omega, hRdb⟩

set_option maxRecDepth 40000 in
/-- Witness for `c4_root_snapshot_only_in_block0` at the image `c4d`, where
the allocated inode 32 falls in inode-table block 1: the staged inode-table
record targets block 20, not the root's block 19. -/
theorem c4_root_snapshot_witness :
    readU32 (journalBytes (diskAfterCreate c4d fooName t0)) 4116
      = INODE_START_IDX + 32 / 32 ∧
    ¬ INODE_START_IDX + 32 / 32 = INODE_START_IDX :=
  ⟨(c4_root_snapshot_only_in_block0 c4d fooName t0
      (diskAfterCreate c4d fooName t0) 32 rfl (by decide) (by decide)
      (by decide)).2.1,
    ((c4_root_snapshot_only_in_block0 c4d fooName t0
      (diskAfterCreate c4d fooName t0) 32 rfl (by decide) (by decide)
      (by decide)).2.2.2.2.2.2.2 (by decide)).1⟩

end Journal
